import Mathlib

/-!
Shallow embedding of the tunnel-manager core (Go) in Lean 4.

Sources embedded:
- internal/models (Host, ServicePort, Tunnel, UpdateHostRequest)
- the SSH tunnel runtime (SSHTunnel: Start, Stop, establishConnection,
  saveTunnelStatus, reconnect, monitorConnection tick, accept loop)
- the tunnel manager (StartTunnel, StopTunnel, RestoreAllTunnels)
- the host partial-update field application in the REST handler.

Side effects (SSH dial, remote listen, accept, DB save/delete) are driven by
explicit oracles: a connect attempt outcome, a list of accept-loop events, a
resolver function for TCP addresses, and a flag for DB-create failure.  The
mutable per-runtime state (in-memory Tunnel record, persisted record, stop
flag, done channel, client handle, sleep counters) is threaded explicitly.
-/

/-- Model of Go strings.Contains restricted to character lists: does
needle occur as a contiguous run inside the second list? -/
def containsAux (needle : List Char) : List Char → Bool
  | [] => needle.isEmpty
  | a :: t => needle.isPrefixOf (a :: t) || containsAux needle t

/-- Model of Go strings.Contains s sub. -/
def strContains (s sub : String) : Bool :=
  containsAux sub.toList s.toList

theorem containsAux_append (p l sub : List Char) (h : containsAux sub l = true) :
    containsAux sub (p ++ l) = true := by
  induction p with
  | nil => simpa using h
  | cons a p ih => simp [containsAux, ih]

theorem strContains_append (pre s sub : String) (h : strContains s sub = true) :
    strContains (pre ++ s) sub = true := by
  unfold strContains at h ⊢
  have hd : (pre ++ s).toList = pre.toList ++ s.toList := by
    simp [String.toList, String.data_append]
  rw [hd]
  exact containsAux_append _ _ _ h

/-- Host record (internal/models). Ports are Go ints. -/
structure Host where
  ID : Nat
  IP : String
  Port : Int
  User : String
  Password : String
  Description : String
  Enabled : Bool
deriving DecidableEq, Repr

/-- ServicePort record (internal/models). -/
structure ServicePort where
  ID : Nat
  ServiceIP : String
  ServicePort : Int
  LocalPort : Int
  Description : String
deriving DecidableEq, Repr

/-- Tunnel status record (internal/models), keyed by (HostID, SPID).
LastConnectedAt is a logical timestamp. -/
structure Tunnel where
  HostID : Nat
  SPID : Nat
  Status : String
  LastError : String
  RetryCount : Nat
  LastConnectedAt : Nat
  Server : String
  Local : String
  Remote : String
deriving DecidableEq, Repr

/-- Partial-update request body for PUT /api/host/:id (internal/models).
Pointer fields of the Go struct become Option. -/
structure UpdateHostRequest where
  IP : String
  Port : Option Int
  User : String
  Password : String
  Description : String
  Enabled : Option Bool
deriving DecidableEq, Repr

/-- Resolved TCP address (net.TCPAddr, as far as the core needs it). -/
structure TCPAddr where
  IP : String
  Port : Int
deriving DecidableEq, Repr

/-- The immutable construction data of one tunnel runtime, as produced by
NewSSHTunnel: identity plus the three resolved endpoints. -/
structure SSHTunnel where
  HostID : Nat
  SPID : Nat
  Local : TCPAddr
  Server : TCPAddr
  Remote : TCPAddr
deriving DecidableEq, Repr

/-- NewSSHTunnel resolves the three address strings in order (local, server,
remote) and fails if any resolution fails.  The resolver stands in for
net.ResolveTCPAddr. -/
def NewSSHTunnel (resolve : String → Option TCPAddr) (hostID spID : Nat)
    (localAddr serverAddr remoteAddr : String) : Option SSHTunnel :=
  match resolve localAddr with
  | none => none
  | some l =>
    match resolve serverAddr with
    | none => none
    | some sv =>
      match resolve remoteAddr with
      | none => none
      | some r =>
        some { HostID := hostID, SPID := spID, Local := l, Server := sv, Remote := r }

/-- Mutable state of one tunnel runtime together with its slice of the world:
the in-memory Tunnel record it mutates, the persisted copy of that record
(none once deleted), the stop flag, the done channel, whether an SSH client is
held, counters of retry sleeps (Start) and 1-second accept-retry sleeps, a
counter of executed DB deletes, and a logical clock. -/
structure RunState where
  tunnel : Tunnel
  db : Option Tunnel
  isStopped : Bool
  doneClosed : Bool
  client : Bool
  retrySleeps : Nat
  acceptSleeps : Nat
  dbDeletes : Nat
  now : Nat
deriving DecidableEq, Repr

/-- One event observed by the accept loop of an established connection. -/
inductive AcceptEvent where
  | conn
  | tempErr (msg : String)
  | eofErr
  | otherErr (msg : String)
deriving DecidableEq, Repr

/-- How the accept loop ends (or fails to end) on a finite event list. -/
inductive AcceptOutcome where
  | running
  | cleanClose
  | failed (msg : String)
deriving DecidableEq, Repr

/-- Outcome oracle for one connect attempt: the SSH dial fails, the remote
listen fails, or the connection is established and the accept loop sees the
given events. -/
inductive Attempt where
  | dialFail (msg : String)
  | listenFail (msg : String)
  | connected (events : List AcceptEvent)
deriving DecidableEq, Repr

/-- Result of establishConnection as seen by its caller: still blocked in the
accept loop, returned nil, or returned an error message. -/
inductive EstResult where
  | blocked
  | ok
  | err (msg : String)
deriving DecidableEq, Repr

/-- What one iteration of the Start loop did. -/
inductive StepOut where
  | ret
  | blocked
  | looped
deriving DecidableEq, Repr

namespace SSHTunnel

/-- saveTunnelStatus: under the stop mutex, if the runtime is stopped the
write is suppressed; otherwise the in-memory record is saved to the store. -/
def saveTunnelStatus (s : RunState) : RunState :=
  if s.isStopped then s else { s with db := some s.tunnel }

/-- Accept loop of establishConnection, folded over the event list.
A successful accept forwards and continues; a temporary network error sleeps
one second (counted) and continues; io.EOF is a clean close; any other error
ends the attempt with a wrapped error. -/
def acceptLoop : List AcceptEvent → Nat → Nat × AcceptOutcome
  | [], k => (k, .running)
  | .conn :: rest, k => acceptLoop rest k
  | .tempErr _ :: rest, k => acceptLoop rest (k + 1)
  | .eofErr :: _, k => (k, .cleanClose)
  | .otherErr msg :: _, k => (k, .failed ("listener accept error: " ++ msg))

/-- establishConnection: dial SSH, open the remote listener, store the client,
mark the record connected, then run the accept loop.  On dial or listen
failure the record is marked error with the raw message and a wrapped error is
returned. -/
def establishConnection (att : Attempt) (s : RunState) : RunState × EstResult :=
  match att with
  | .dialFail msg =>
    (saveTunnelStatus { s with tunnel := { s.tunnel with Status := "error", LastError := msg } },
     .err ("failed to establish SSH connection: " ++ msg))
  | .listenFail msg =>
    (saveTunnelStatus { s with tunnel := { s.tunnel with Status := "error", LastError := msg } },
     .err ("failed to start remote listener: " ++ msg))
  | .connected events =>
    let s2 := saveTunnelStatus { s with client := true, tunnel :=
      { s.tunnel with Status := "connected", RetryCount := 0, LastError := "",
                      LastConnectedAt := s.now } }
    let ko := acceptLoop events s2.acceptSleeps
    ({ s2 with acceptSleeps := ko.1 },
     match ko.2 with
     | .running => .blocked
     | .cleanClose => .ok
     | .failed msg => .err msg)

/-- reconnect: unless stopped, mark the record reconnecting with retry count
incremented, save it, drop the client, and run one connect attempt. -/
def reconnect (att : Attempt) (s : RunState) : RunState :=
  if s.isStopped then s
  else
    let s1 := saveTunnelStatus { s with tunnel :=
      { s.tunnel with Status := "reconnecting", RetryCount := s.tunnel.RetryCount + 1 } }
    let s2 := { s1 with client := false }
    (establishConnection att s2).1

/-- One tick of monitorConnection: exit if done; otherwise, when a client is
held, a failed TCP probe or a failed keepalive triggers reconnect. -/
def monitorTick (probeOk keepaliveOk : Bool) (att : Attempt) (s : RunState) : RunState :=
  if s.doneClosed then s
  else if s.client then
    if probeOk = false then reconnect att s
    else if keepaliveOk = false then reconnect att s
    else s
  else s

/-- One iteration of the Start retry loop: check the done channel, check the
stop flag, run one connect attempt; an auth-failure error returns, any other
error sleeps the monitoring interval, marks the record reconnecting with the
retry count incremented, saves it, and loops. -/
def startStep (att : Attempt) (s : RunState) : RunState × StepOut :=
  if s.doneClosed then (s, .ret)
  else if s.isStopped then (s, .ret)
  else
    match establishConnection att s with
    | (s1, .blocked) => (s1, .blocked)
    | (s1, .ok) => (s1, .looped)
    | (s1, .err msg) =>
      if strContains msg "unable to authenticate" then (s1, .ret)
      else
        let s2 := { s1 with retrySleeps := s1.retrySleeps + 1 }
        (saveTunnelStatus { s2 with tunnel :=
          { s2.tunnel with Status := "reconnecting",
                           RetryCount := s2.tunnel.RetryCount + 1 } }, .looped)

/-- Start: the retry loop, driven by a finite list of attempt outcomes. -/
def Start : List Attempt → RunState → RunState
  | [], s => s
  | att :: rest, s =>
    match startStep att s with
    | (s1, .looped) => Start rest s1
    | (s1, _) => s1

/-- Stop: if already stopped return nil at once; otherwise close the done
channel, close and nil the client, delete the persisted record, and set the
stop flag (deferred, so it is set on every path). -/
def Stop (s : RunState) : RunState × Option String :=
  if s.isStopped then (s, none)
  else
    ({ s with doneClosed := true, client := false, db := none,
              dbDeletes := s.dbDeletes + 1, isStopped := true }, none)

/-- Does this attempt outcome include a successful connect? -/
def attConnects : Attempt → Bool
  | .connected _ => true
  | _ => false

end SSHTunnel

/-- Manager state: the registry of runtimes keyed by the formatted string
"<hostID>-<spID>", the persisted Tunnel records, the persisted Hosts and
ServicePorts, and the list of spawned Start tasks. -/
structure MState where
  tunnels : List (String × SSHTunnel)
  dbTunnels : List Tunnel
  dbHosts : List Host
  dbSPs : List ServicePort
  spawned : List (Nat × Nat)
deriving DecidableEq, Repr

namespace Manager

/-- Registry key, fmt.Sprintf of the two IDs. -/
def tunnelKey (hostID spID : Nat) : String :=
  toString hostID ++ "-" ++ toString spID

/-- The Tunnel record built by StartTunnel before construction: status
starting, the three formatted endpoint strings, zero values elsewhere. -/
def startTunnelRecord (host : Host) (sp : ServicePort) : Tunnel :=
  { HostID := host.ID, SPID := sp.ID, Status := "starting",
    LastError := "", RetryCount := 0, LastConnectedAt := 0,
    Local := "0.0.0.0:" ++ toString sp.LocalPort,
    Server := host.IP ++ ":" ++ toString host.Port,
    Remote := sp.ServiceIP ++ ":" ++ toString sp.ServicePort }

/-- StartTunnel under the write lock: reject an existing key, build the
record, construct the runtime (endpoint resolution may fail), insert it into
the registry, then FirstOrCreate the record (its failure is an oracle flag),
and finally spawn the Start task. -/
def StartTunnel (resolve : String → Option TCPAddr) (createFails : Bool)
    (s : MState) (host : Host) (sp : ServicePort) : MState × Option String :=
  let key := tunnelKey host.ID sp.ID
  if s.tunnels.any (fun p => p.1 == key) then
    (s, some "tunnel already exists")
  else
    let tunnel := startTunnelRecord host sp
    match NewSSHTunnel resolve host.ID sp.ID tunnel.Local tunnel.Server tunnel.Remote with
    | none => (s, some "failed to create tunnel")
    | some t =>
      let s1 := { s with tunnels := (key, t) :: s.tunnels }
      if createFails then (s1, some "failed to create tunnel information")
      else
        let s2 :=
          if s1.dbTunnels.any (fun r => r.HostID == host.ID && r.SPID == sp.ID) then s1
          else { s1 with dbTunnels := tunnel :: s1.dbTunnels }
        ({ s2 with spawned := (host.ID, sp.ID) :: s2.spawned }, none)

/-- StopTunnel under the write lock: lookup by key, fail if absent, run the
runtime's Stop (which deletes the persisted record for the pair), and remove
the registry entry. -/
def StopTunnel (s : MState) (hostID spID : Nat) : MState × Option String :=
  let key := tunnelKey hostID spID
  if s.tunnels.any (fun p => p.1 == key) then
    ({ s with
        tunnels := s.tunnels.filter (fun p => !(p.1 == key)),
        dbTunnels := s.dbTunnels.filter (fun r => !(r.HostID == hostID && r.SPID == spID)) },
     none)
  else (s, some "tunnel does not exist")

/-- Unscoped delete of all Tunnel records belonging to one host. -/
def deleteHostTunnels (s : MState) (hostID : Nat) : MState :=
  { s with dbTunnels := s.dbTunnels.filter (fun r => !(r.HostID == hostID)) }

/-- Restore step for one host: purge its stale records, then StartTunnel for
every service port, skipping failures. -/
def restoreHost (resolve : String → Option TCPAddr) (sps : List ServicePort)
    (s : MState) (host : Host) : MState :=
  sps.foldl (fun st sp => (StartTunnel resolve false st host sp).1)
    (deleteHostTunnels s host.ID)

/-- RestoreAllTunnels: read all hosts and service ports; a no-op when either
collection is empty; otherwise per host delete stale records then start all
pairs. -/
def RestoreAllTunnels (resolve : String → Option TCPAddr) (s : MState) :
    MState × Option String :=
  if s.dbHosts.isEmpty then (s, none)
  else if s.dbSPs.isEmpty then (s, none)
  else (s.dbHosts.foldl (restoreHost resolve s.dbSPs) s, none)

end Manager

namespace Handler

/-- The field-application block of the UpdateHost handler: non-empty request
strings and non-nil request pointers overwrite, except that the description
branch tests the stored description instead of the requested one. -/
def updateHostFields (host : Host) (req : UpdateHostRequest) : Host :=
  let h1 := if req.IP ≠ "" then { host with IP := req.IP } else host
  let h2 := match req.Port with
    | some p => { h1 with Port := p }
    | none => h1
  let h3 := if req.User ≠ "" then { h2 with User := req.User } else h2
  let h4 := if req.Password ≠ "" then { h3 with Password := req.Password } else h3
  if h4.Description ≠ "" then { h4 with Description := req.Description } else h4

end Handler

/-- Sample Tunnel record for concrete witnesses. -/
def tun0 : Tunnel :=
  { HostID := 1, SPID := 2, Status := "starting", LastError := "", RetryCount := 0,
    LastConnectedAt := 0, Server := "10.0.0.1:22", Local := "0.0.0.0:8080",
    Remote := "192.168.1.10:80" }

/-- Sample live runtime state for concrete witnesses. -/
def run0 : RunState :=
  { tunnel := tun0, db := some tun0, isStopped := false, doneClosed := false,
    client := false, retrySleeps := 0, acceptSleeps := 0, dbDeletes := 0, now := 5 }

/-- An SSH handshake error message as produced by the ssh package when
password authentication is rejected. -/
def authMsg : String :=
  "ssh: handshake failed: ssh: unable to authenticate, attempted methods [none password], no supported methods remain"

/-- Sample host for concrete witnesses. -/
def host0 : Host :=
  { ID := 1, IP := "10.0.0.1", Port := 22, User := "u", Password := "p",
    Description := "", Enabled := true }

/-- Sample service port for concrete witnesses. -/
def sp0 : ServicePort :=
  { ID := 2, ServiceIP := "192.168.1.10", ServicePort := 80, LocalPort := 8080,
    Description := "" }

/-- Sample resolver that accepts host:port with a numeric port. -/
def resolve0 (s : String) : Option TCPAddr :=
  match s.splitOn ":" with
  | [h, p] =>
    match p.toInt? with
    | some n => some { IP := h, Port := n }
    | none => none
  | _ => none

/-- Sample empty manager state. -/
def ms0 : MState :=
  { tunnels := [], dbTunnels := [], dbHosts := [], dbSPs := [], spawned := [] }

/-- Resolver that accepts every address string. -/
def resolveAll : String → Option TCPAddr := fun s => some { IP := s, Port := 0 }

/-- Resolver that rejects every address string. -/
def resolveNone : String → Option TCPAddr := fun _ => none

/-- Sample runtime entry as registered by StartTunnel for host0 and sp0. -/
def rt0 : SSHTunnel :=
  { HostID := 1, SPID := 2, Local := { IP := "0.0.0.0", Port := 8080 },
    Server := { IP := "10.0.0.1", Port := 22 },
    Remote := { IP := "192.168.1.10", Port := 80 } }

/-- Sample manager state with one registered runtime for (1, 2). -/
def ms1 : MState := { ms0 with tunnels := [("1-2", rt0)] }

theorem saveTunnelStatus_of_live (s : RunState) (h : s.isStopped = false) :
    SSHTunnel.saveTunnelStatus s = { s with db := some s.tunnel } := by
  simp [SSHTunnel.saveTunnelStatus, h]

theorem saveTunnelStatus_of_stopped (s : RunState) (h : s.isStopped = true) :
    SSHTunnel.saveTunnelStatus s = s := by
  simp [SSHTunnel.saveTunnelStatus, h]

theorem acceptLoop_snd_const (events : List AcceptEvent) (k k' : Nat) :
    (SSHTunnel.acceptLoop events k).2 = (SSHTunnel.acceptLoop events k').2 := by
  induction events generalizing k k' with
  | nil => rfl
  | cons e rest ih =>
    cases e <;> simp [SSHTunnel.acceptLoop] <;> apply ih

/-- C1: a connect attempt inside Start that fails with an error containing
"unable to authenticate" makes Start return at once: the retry sleep is not
executed, the record is not set to reconnecting, the retry count is not
incremented, and the persisted record is left at status error with the
authentication message as lastError. -/
theorem start_authFailure_terminal (s : RunState) (msg : String) (rest : List Attempt)
    (hstop : s.isStopped = false) (hdone : s.doneClosed = false)
    (hretry : s.tunnel.RetryCount = 0)
    (hauth : strContains msg "unable to authenticate" = true) :
    SSHTunnel.Start (Attempt.dialFail msg :: rest) s =
      { s with tunnel := { s.tunnel with Status := "error", LastError := msg },
               db := some { s.tunnel with Status := "error", LastError := msg } } ∧
    (SSHTunnel.Start (Attempt.dialFail msg :: rest) s).retrySleeps = s.retrySleeps ∧
    (SSHTunnel.Start (Attempt.dialFail msg :: rest) s).tunnel.Status = "error" ∧
    (SSHTunnel.Start (Attempt.dialFail msg :: rest) s).tunnel.RetryCount = 0 ∧
    strContains (SSHTunnel.Start (Attempt.dialFail msg :: rest) s).tunnel.LastError
      "unable to authenticate" = true := by
  have hw : strContains ("failed to establish SSH connection: " ++ msg)
      "unable to authenticate" = true := strContains_append _ _ _ hauth
  have he : SSHTunnel.Start (Attempt.dialFail msg :: rest) s =
      { s with tunnel := { s.tunnel with Status := "error", LastError := msg },
               db := some { s.tunnel with Status := "error", LastError := msg } } := by
    simp [SSHTunnel.Start, SSHTunnel.startStep, SSHTunnel.establishConnection,
      SSHTunnel.saveTunnelStatus, hstop, hdone, hw]
  refine ⟨he, ?_, ?_, ?_, ?_⟩ <;> rw [he] <;> simp [hretry, hauth]

/-- C1 witness: the authentication-failure scenario at a concrete state. -/
theorem start_authFailure_terminal_witness :
    SSHTunnel.Start [Attempt.dialFail authMsg] run0 =
      { run0 with tunnel := { run0.tunnel with Status := "error", LastError := authMsg },
                  db := some { run0.tunnel with Status := "error", LastError := authMsg } } ∧
    (SSHTunnel.Start [Attempt.dialFail authMsg] run0).retrySleeps = run0.retrySleeps ∧
    (SSHTunnel.Start [Attempt.dialFail authMsg] run0).tunnel.Status = "error" ∧
    (SSHTunnel.Start [Attempt.dialFail authMsg] run0).tunnel.RetryCount = 0 ∧
    strContains (SSHTunnel.Start [Attempt.dialFail authMsg] run0).tunnel.LastError
      "unable to authenticate" = true :=
  start_authFailure_terminal run0 authMsg [] rfl rfl rfl (by decide)

/-- C3: StartTunnel on a key already present in the registry fails with the
already-exists error and leaves the whole manager state (registry, persisted
records, spawned tasks) unchanged. -/
theorem startTunnel_duplicate_rejected (resolve : String → Option TCPAddr)
    (createFails : Bool) (s : MState) (host : Host) (sp : ServicePort)
    (h : s.tunnels.any (fun p => p.1 == Manager.tunnelKey host.ID sp.ID) = true) :
    Manager.StartTunnel resolve createFails s host sp = (s, some "tunnel already exists") := by
  simp [Manager.StartTunnel, h]

/-- C3 witness: duplicate StartTunnel at a concrete registry state. -/
theorem startTunnel_duplicate_rejected_witness :
    Manager.StartTunnel resolveAll false ms1 host0 sp0 = (ms1, some "tunnel already exists") :=
  startTunnel_duplicate_rejected resolveAll false ms1 host0 sp0 (by decide)

/-- C10: in the UpdateHost field application, the description guard tests the
stored description: a host whose stored description is empty keeps it empty
whatever the request says, and a host whose stored description is non-empty
has it overwritten with the requested description even when that is empty. -/
theorem updateHost_description_guard (host : Host) (req : UpdateHostRequest) :
    (Handler.updateHostFields host req).Description =
      (if host.Description = "" then "" else req.Description) := by
  cases hp : req.Port <;>
    simp only [Handler.updateHostFields, hp] <;>
    split_ifs <;> simp_all

@[simp] theorem saveTunnelStatus_tunnel (s : RunState) :
    (SSHTunnel.saveTunnelStatus s).tunnel = s.tunnel := by
  unfold SSHTunnel.saveTunnelStatus; split <;> rfl

@[simp] theorem saveTunnelStatus_isStopped (s : RunState) :
    (SSHTunnel.saveTunnelStatus s).isStopped = s.isStopped := by
  unfold SSHTunnel.saveTunnelStatus; split <;> rfl

@[simp] theorem saveTunnelStatus_acceptSleeps (s : RunState) :
    (SSHTunnel.saveTunnelStatus s).acceptSleeps = s.acceptSleeps := by
  unfold SSHTunnel.saveTunnelStatus; split <;> rfl

@[simp] theorem saveTunnelStatus_retrySleeps (s : RunState) :
    (SSHTunnel.saveTunnelStatus s).retrySleeps = s.retrySleeps := by
  unfold SSHTunnel.saveTunnelStatus; split <;> rfl

@[simp] theorem saveTunnelStatus_db (s : RunState) :
    (SSHTunnel.saveTunnelStatus s).db = if s.isStopped then s.db else some s.tunnel := by
  unfold SSHTunnel.saveTunnelStatus; split <;> simp_all

/-- C2: every successful connect writes the record as connected with retry
count 0, empty lastError and lastConnectedAt equal to the current time; a
Start retry writes reconnecting with the retry count incremented by exactly
one, a supervisor-triggered reconnection increments it by exactly one (and a
reconnection that succeeds resets it to 0), and no Start iteration that does
not contain a successful connect ever decreases it. -/
theorem retryCount_discipline :
    (∀ (s : RunState) (events : List AcceptEvent), s.isStopped = false →
      (SSHTunnel.establishConnection (.connected events) s).1.tunnel =
        { s.tunnel with Status := "connected", RetryCount := 0, LastError := "",
                        LastConnectedAt := s.now } ∧
      (SSHTunnel.establishConnection (.connected events) s).1.db =
        some { s.tunnel with Status := "connected", RetryCount := 0, LastError := "",
                             LastConnectedAt := s.now }) ∧
    (∀ (s : RunState) (msg : String), s.isStopped = false → s.doneClosed = false →
      strContains ("failed to establish SSH connection: " ++ msg)
        "unable to authenticate" = false →
      (SSHTunnel.startStep (.dialFail msg) s).1.tunnel.RetryCount
          = s.tunnel.RetryCount + 1 ∧
      (SSHTunnel.startStep (.dialFail msg) s).1.tunnel.Status = "reconnecting" ∧
      (SSHTunnel.startStep (.dialFail msg) s).1.db
          = some (SSHTunnel.startStep (.dialFail msg) s).1.tunnel ∧
      (SSHTunnel.startStep (.dialFail msg) s).2 = .looped) ∧
    (∀ (s : RunState) (msg : String), s.isStopped = false →
      (SSHTunnel.reconnect (.dialFail msg) s).tunnel.RetryCount
        = s.tunnel.RetryCount + 1) ∧
    (∀ (s : RunState) (events : List AcceptEvent), s.isStopped = false →
      (SSHTunnel.reconnect (.connected events) s).tunnel.RetryCount = 0) ∧
    (∀ (att : Attempt) (s : RunState), SSHTunnel.attConnects att = false →
      s.tunnel.RetryCount ≤ (SSHTunnel.startStep att s).1.tunnel.RetryCount) := by
  refine ⟨?_, ?_, ?_, ?_, ?_⟩
  · intro s events hstop
    simp [SSHTunnel.establishConnection, hstop]
  · intro s msg hstop hdone hw
    simp [SSHTunnel.startStep, SSHTunnel.establishConnection,
      SSHTunnel.saveTunnelStatus, hstop, hdone, hw]
  · intro s msg hstop
    simp [SSHTunnel.reconnect, SSHTunnel.establishConnection,
      SSHTunnel.saveTunnelStatus, hstop]
  · intro s events hstop
    simp [SSHTunnel.reconnect, SSHTunnel.establishConnection, hstop]
  · intro att s hc
    cases att with
    | connected events => simp [SSHTunnel.attConnects] at hc
    | dialFail msg =>
      simp only [SSHTunnel.startStep, SSHTunnel.establishConnection]
      split
      · exact Nat.le_refl _
      · split
        · exact Nat.le_refl _
        · split
          · simp
          · simp
    | listenFail msg =>
      simp only [SSHTunnel.startStep, SSHTunnel.establishConnection]
      split
      · exact Nat.le_refl _
      · split
        · exact Nat.le_refl _
        · split
          · simp
          · simp

/-- C2 witness: the retry-count discipline at concrete states. -/
theorem retryCount_discipline_witness :
    (SSHTunnel.establishConnection (.connected []) run0).1.db =
      some { run0.tunnel with Status := "connected", RetryCount := 0, LastError := "",
                              LastConnectedAt := run0.now } ∧
    (SSHTunnel.startStep (.dialFail "connection refused") run0).1.tunnel.RetryCount
      = run0.tunnel.RetryCount + 1 ∧
    (SSHTunnel.reconnect (.dialFail "connection refused") run0).tunnel.RetryCount
      = run0.tunnel.RetryCount + 1 ∧
    (SSHTunnel.reconnect (.connected []) run0).tunnel.RetryCount = 0 ∧
    run0.tunnel.RetryCount
      ≤ (SSHTunnel.startStep (.listenFail "addr in use") run0).1.tunnel.RetryCount :=
  ⟨(retryCount_discipline.1 run0 [] rfl).2,
   (retryCount_discipline.2.1 run0 "connection refused" rfl rfl (by decide)).1,
   retryCount_discipline.2.2.1 run0 "connection refused" rfl,
   retryCount_discipline.2.2.2.1 run0 [] rfl,
   retryCount_discipline.2.2.2.2 (.listenFail "addr in use") run0 rfl⟩

/-- C6: once the stop flag is set, every record-update site is suppressed:
saveTunnelStatus is the identity, reconnect is the identity, Start returns at
once, a connect attempt leaves the persisted record untouched, a supervisor
tick is the identity, and a second Stop neither writes nor deletes. -/
theorem stopped_suppresses_writes :
    (∀ s : RunState, s.isStopped = true → SSHTunnel.saveTunnelStatus s = s) ∧
    (∀ (att : Attempt) (s : RunState), s.isStopped = true →
      SSHTunnel.reconnect att s = s) ∧
    (∀ (atts : List Attempt) (s : RunState), s.isStopped = true →
      SSHTunnel.Start atts s = s) ∧
    (∀ (att : Attempt) (s : RunState), s.isStopped = true →
      (SSHTunnel.establishConnection att s).1.db = s.db) ∧
    (∀ (pOk kOk : Bool) (att : Attempt) (s : RunState), s.isStopped = true →
      SSHTunnel.monitorTick pOk kOk att s = s) ∧
    (∀ s : RunState, s.isStopped = true →
      (SSHTunnel.Stop s).1.db = s.db ∧ (SSHTunnel.Stop s).1.dbDeletes = s.dbDeletes) := by
  have hrec : ∀ (att : Attempt) (s : RunState), s.isStopped = true →
      SSHTunnel.reconnect att s = s := by
    intro att s h
    simp [SSHTunnel.reconnect, h]
  refine ⟨fun s h => saveTunnelStatus_of_stopped s h, hrec, ?_, ?_, ?_, ?_⟩
  · intro atts s h
    cases atts with
    | nil => rfl
    | cons att rest =>
      have hstep : SSHTunnel.startStep att s = (s, .ret) := by
        unfold SSHTunnel.startStep
        split
        · rfl
        · simp [h]
      simp [SSHTunnel.Start, hstep]
  · intro att s h
    cases att with
    | dialFail msg => simp [SSHTunnel.establishConnection, SSHTunnel.saveTunnelStatus, h]
    | listenFail msg => simp [SSHTunnel.establishConnection, SSHTunnel.saveTunnelStatus, h]
    | connected events => simp [SSHTunnel.establishConnection, h]
  · intro pOk kOk att s h
    simp only [SSHTunnel.monitorTick]
    split
    · rfl
    · split
      · split
        · exact hrec att s h
        · split
          · exact hrec att s h
          · rfl
      · rfl
  · intro s h
    simp [SSHTunnel.Stop, h]

/-- C6 witness: suppression at a concrete stopped state. -/
theorem stopped_suppresses_writes_witness :
    SSHTunnel.saveTunnelStatus { run0 with isStopped := true }
      = { run0 with isStopped := true } ∧
    SSHTunnel.reconnect (.dialFail "x") { run0 with isStopped := true }
      = { run0 with isStopped := true } ∧
    SSHTunnel.Start [.dialFail "x"] { run0 with isStopped := true }
      = { run0 with isStopped := true } ∧
    (SSHTunnel.establishConnection (.connected []) { run0 with isStopped := true }).1.db
      = ({ run0 with isStopped := true } : RunState).db ∧
    SSHTunnel.monitorTick false true (.dialFail "x") { run0 with isStopped := true }
      = { run0 with isStopped := true } :=
  ⟨stopped_suppresses_writes.1 _ rfl,
   stopped_suppresses_writes.2.1 _ _ rfl,
   stopped_suppresses_writes.2.2.1 _ _ rfl,
   stopped_suppresses_writes.2.2.2.1 _ _ rfl,
   stopped_suppresses_writes.2.2.2.2.1 false true _ _ rfl⟩

theorem any_key_filter {α : Type} (l : List (String × α)) (key : String) :
    ((l.filter (fun p => !(p.1 == key))).any (fun p => p.1 == key)) = false := by
  induction l with
  | nil => rfl
  | cons a t ih =>
    by_cases h : (a.1 == key) = true
    · simp [List.filter, h, ih]
    · simp only [Bool.not_eq_true] at h
      simp [List.filter, h, ih]

/-- C5: runtime Stop is idempotent and terminal.  The first Stop sets the
stop flag, closes the done channel, drops the client and deletes the
persisted record; any Stop leaves the flag set; a second Stop returns nil and
changes nothing, so two Stops perform exactly one record deletion; at the
manager, StopTunnel removes exactly the registry entry for the pair and a
repeated StopTunnel fails with not-exists and changes nothing. -/
theorem stop_idempotent :
    (∀ s : RunState, s.isStopped = false →
      SSHTunnel.Stop s =
        ({ s with doneClosed := true, client := false, db := none,
                  dbDeletes := s.dbDeletes + 1, isStopped := true }, none)) ∧
    (∀ s : RunState, (SSHTunnel.Stop s).1.isStopped = true ∧ (SSHTunnel.Stop s).2 = none) ∧
    (∀ s : RunState, s.isStopped = true → SSHTunnel.Stop s = (s, none)) ∧
    (∀ s : RunState,
      SSHTunnel.Stop (SSHTunnel.Stop s).1 = ((SSHTunnel.Stop s).1, none)) ∧
    (∀ s : RunState, s.isStopped = false →
      (SSHTunnel.Stop (SSHTunnel.Stop s).1).1.dbDeletes = s.dbDeletes + 1 ∧
      (SSHTunnel.Stop (SSHTunnel.Stop s).1).1.db = none) ∧
    (∀ (ms : MState) (hostID spID : Nat),
      ms.tunnels.any (fun p => p.1 == Manager.tunnelKey hostID spID) = true →
      Manager.StopTunnel ms hostID spID =
        ({ ms with
            tunnels := ms.tunnels.filter
              (fun p => !(p.1 == Manager.tunnelKey hostID spID)),
            dbTunnels := ms.dbTunnels.filter
              (fun r => !(r.HostID == hostID && r.SPID == spID)) }, none)) ∧
    (∀ (ms : MState) (hostID spID : Nat),
      Manager.StopTunnel (Manager.StopTunnel ms hostID spID).1 hostID spID =
        ((Manager.StopTunnel ms hostID spID).1, some "tunnel does not exist")) := by
  have hterm : ∀ s : RunState, (SSHTunnel.Stop s).1.isStopped = true := by
    intro s
    unfold SSHTunnel.Stop
    split
    · assumption
    · rfl
  have hstopped : ∀ s : RunState, s.isStopped = true → SSHTunnel.Stop s = (s, none) := by
    intro s h
    simp [SSHTunnel.Stop, h]
  refine ⟨?_, ?_, hstopped, ?_, ?_, ?_, ?_⟩
  · intro s h
    simp [SSHTunnel.Stop, h]
  · intro s
    refine ⟨hterm s, ?_⟩
    unfold SSHTunnel.Stop
    split <;> rfl
  · intro s
    exact hstopped _ (hterm s)
  · intro s h
    rw [hstopped _ (hterm s)]
    simp [SSHTunnel.Stop, h]
  · intro ms hostID spID h
    simp [Manager.StopTunnel, h]
  · intro ms hostID spID
    by_cases h : ms.tunnels.any (fun p => p.1 == Manager.tunnelKey hostID spID) = true
    · simp [Manager.StopTunnel, h, any_key_filter]
    · simp only [Bool.not_eq_true] at h
      simp [Manager.StopTunnel, h]

/-- C5 witness: double Stop at a concrete runtime state and a concrete
manager state. -/
theorem stop_idempotent_witness :
    SSHTunnel.Stop run0 =
      ({ run0 with doneClosed := true, client := false, db := none,
                   dbDeletes := run0.dbDeletes + 1, isStopped := true }, none) ∧
    SSHTunnel.Stop (SSHTunnel.Stop run0).1 = ((SSHTunnel.Stop run0).1, none) ∧
    (SSHTunnel.Stop (SSHTunnel.Stop run0).1).1.dbDeletes = run0.dbDeletes + 1 ∧
    Manager.StopTunnel ms1 1 2 =
      ({ ms1 with
          tunnels := ms1.tunnels.filter (fun p => !(p.1 == Manager.tunnelKey 1 2)),
          dbTunnels := ms1.dbTunnels.filter
            (fun r => !(r.HostID == 1 && r.SPID == 2)) }, none) ∧
    Manager.StopTunnel (Manager.StopTunnel ms1 1 2).1 1 2 =
      ((Manager.StopTunnel ms1 1 2).1, some "tunnel does not exist") :=
  ⟨stop_idempotent.1 run0 rfl,
   stop_idempotent.2.2.2.1 run0,
   (stop_idempotent.2.2.2.2.1 run0 rfl).1,
   stop_idempotent.2.2.2.2.2.1 ms1 1 2 (by decide),
   stop_idempotent.2.2.2.2.2.2 ms1 1 2⟩

/-- C8: accept-loop error policy of one connect attempt: a temporary network
error sleeps one second and retries, io.EOF ends the attempt and
establishConnection returns nil (no error reaches the Start retry loop), and
any other accept error is returned by establishConnection as a retriable
error. -/
theorem accept_loop_policy :
    (∀ (msg : String) (rest : List AcceptEvent) (k : Nat),
      SSHTunnel.acceptLoop (.tempErr msg :: rest) k = SSHTunnel.acceptLoop rest (k + 1)) ∧
    (∀ (rest : List AcceptEvent) (k : Nat),
      SSHTunnel.acceptLoop (.eofErr :: rest) k = (k, .cleanClose)) ∧
    (∀ (msg : String) (rest : List AcceptEvent) (k : Nat),
      SSHTunnel.acceptLoop (.otherErr msg :: rest) k =
        (k, .failed ("listener accept error: " ++ msg))) ∧
    (∀ (events : List AcceptEvent) (s : RunState) (k : Nat),
      (SSHTunnel.acceptLoop events k).2 = .cleanClose →
      (SSHTunnel.establishConnection (.connected events) s).2 = .ok) ∧
    (∀ (events : List AcceptEvent) (s : RunState) (k : Nat) (msg : String),
      (SSHTunnel.acceptLoop events k).2 = .failed msg →
      (SSHTunnel.establishConnection (.connected events) s).2 = .err msg) := by
  refine ⟨fun _ _ _ => rfl, fun _ _ => rfl, fun _ _ _ => rfl, ?_, ?_⟩
  · intro events s k h
    have hc : ∀ k' : Nat, (SSHTunnel.acceptLoop events k').2 = .cleanClose :=
      fun k' => (acceptLoop_snd_const events k' k).trans h
    simp [SSHTunnel.establishConnection, hc]
  · intro events s k msg h
    have hc : ∀ k' : Nat, (SSHTunnel.acceptLoop events k').2 = .failed msg :=
      fun k' => (acceptLoop_snd_const events k' k).trans h
    simp [SSHTunnel.establishConnection, hc]

/-- C8 witness: the three accept-loop policies at concrete events. -/
theorem accept_loop_policy_witness :
    SSHTunnel.acceptLoop [.tempErr "timeout", .eofErr] 0
      = SSHTunnel.acceptLoop [.eofErr] 1 ∧
    SSHTunnel.acceptLoop [.eofErr] 3 = (3, .cleanClose) ∧
    SSHTunnel.acceptLoop [.otherErr "use of closed network connection"] 0
      = (0, .failed ("listener accept error: " ++ "use of closed network connection")) ∧
    (SSHTunnel.establishConnection (.connected [.eofErr]) run0).2 = .ok ∧
    (SSHTunnel.establishConnection (.connected [.otherErr "boom"]) run0).2
      = .err ("listener accept error: " ++ "boom") :=
  ⟨accept_loop_policy.1 "timeout" [.eofErr] 0,
   accept_loop_policy.2.1 [] 3,
   accept_loop_policy.2.2.1 "use of closed network connection" [] 0,
   accept_loop_policy.2.2.2.1 [.eofErr] run0 0 rfl,
   accept_loop_policy.2.2.2.2 [.otherErr "boom"] run0 0 ("listener accept error: " ++ "boom") rfl⟩

/-- C4: RestoreAllTunnels is a successful no-op when the persisted host set
or the persisted service-port set is empty (no record deleted, no runtime
registered, no StartTunnel call); otherwise it processes each host by first
purging all of that host's Tunnel records and then calling StartTunnel for
every service port, discarding individual StartTunnel errors. -/
theorem restoreAllTunnels_spec :
    (∀ (resolve : String → Option TCPAddr) (s : MState), s.dbHosts = [] →
      Manager.RestoreAllTunnels resolve s = (s, none)) ∧
    (∀ (resolve : String → Option TCPAddr) (s : MState), s.dbSPs = [] →
      Manager.RestoreAllTunnels resolve s = (s, none)) ∧
    (∀ (resolve : String → Option TCPAddr) (s : MState),
      s.dbHosts ≠ [] → s.dbSPs ≠ [] →
      Manager.RestoreAllTunnels resolve s =
        (s.dbHosts.foldl (fun st h =>
            s.dbSPs.foldl (fun st2 sp => (Manager.StartTunnel resolve false st2 h sp).1)
              { st with dbTunnels := st.dbTunnels.filter (fun rr => !(rr.HostID == h.ID)) })
          s, none)) := by
  refine ⟨?_, ?_, ?_⟩
  · intro resolve s h
    simp [Manager.RestoreAllTunnels, h]
  · intro resolve s h
    unfold Manager.RestoreAllTunnels
    split
    · rfl
    · simp [h]
  · intro resolve s h1 h2
    have e1 : s.dbHosts.isEmpty = false := by
      cases hh : s.dbHosts with
      | nil => exact absurd hh h1
      | cons a t => rfl
    have e2 : s.dbSPs.isEmpty = false := by
      cases hh : s.dbSPs with
      | nil => exact absurd hh h2
      | cons a t => rfl
    have hrh : Manager.restoreHost resolve s.dbSPs = fun st h =>
        s.dbSPs.foldl (fun st2 sp => (Manager.StartTunnel resolve false st2 h sp).1)
          { st with dbTunnels := st.dbTunnels.filter (fun rr => !(rr.HostID == h.ID)) } := by
      funext st h
      simp [Manager.restoreHost, Manager.deleteHostTunnels]
    simp [Manager.RestoreAllTunnels, e1, e2, hrh]

/-- C4 witness: the empty no-op and the nonempty shape at concrete states. -/
theorem restoreAllTunnels_spec_witness :
    Manager.RestoreAllTunnels resolveAll ms0 = (ms0, none) ∧
    Manager.RestoreAllTunnels resolveAll { ms0 with dbHosts := [host0] } =
      ({ ms0 with dbHosts := [host0] }, none) ∧
    Manager.RestoreAllTunnels resolveAll { ms0 with dbHosts := [host0], dbSPs := [sp0] } =
      (([host0] : List Host).foldl (fun st h =>
          ([sp0] : List ServicePort).foldl
            (fun st2 sp => (Manager.StartTunnel resolveAll false st2 h sp).1)
            { st with dbTunnels := st.dbTunnels.filter (fun rr => !(rr.HostID == h.ID)) })
        { ms0 with dbHosts := [host0], dbSPs := [sp0] }, none) :=
  ⟨restoreAllTunnels_spec.1 resolveAll ms0 rfl,
   restoreAllTunnels_spec.2.1 resolveAll { ms0 with dbHosts := [host0] } rfl,
   restoreAllTunnels_spec.2.2 resolveAll { ms0 with dbHosts := [host0], dbSPs := [sp0] }
     (by decide) (by decide)⟩

/-- C7: StartTunnel resolves exactly the three formatted endpoint strings
"0.0.0.0:<localPort>", "<host.ip>:<host.port>" and
"<serviceIP>:<servicePort>"; when every resolution succeeds the registered
runtime carries exactly those resolved endpoints and the created record
carries exactly those strings, and when any resolution fails StartTunnel
returns an error and creates nothing. -/
theorem startTunnel_endpoints :
    (∀ (resolve : String → Option TCPAddr) (cf : Bool) (s : MState)
        (host : Host) (sp : ServicePort),
      s.tunnels.any (fun p => p.1 == Manager.tunnelKey host.ID sp.ID) = false →
      (resolve ("0.0.0.0:" ++ toString sp.LocalPort) = none ∨
       resolve (host.IP ++ ":" ++ toString host.Port) = none ∨
       resolve (sp.ServiceIP ++ ":" ++ toString sp.ServicePort) = none) →
      Manager.StartTunnel resolve cf s host sp = (s, some "failed to create tunnel")) ∧
    (∀ (resolve : String → Option TCPAddr) (s : MState) (host : Host)
        (sp : ServicePort) (l sv r : TCPAddr),
      s.tunnels.any (fun p => p.1 == Manager.tunnelKey host.ID sp.ID) = false →
      s.dbTunnels.any (fun rr => rr.HostID == host.ID && rr.SPID == sp.ID) = false →
      resolve ("0.0.0.0:" ++ toString sp.LocalPort) = some l →
      resolve (host.IP ++ ":" ++ toString host.Port) = some sv →
      resolve (sp.ServiceIP ++ ":" ++ toString sp.ServicePort) = some r →
      Manager.StartTunnel resolve false s host sp =
        ({ s with
            tunnels := (Manager.tunnelKey host.ID sp.ID,
              { HostID := host.ID, SPID := sp.ID, Local := l, Server := sv,
                Remote := r }) :: s.tunnels,
            dbTunnels := Manager.startTunnelRecord host sp :: s.dbTunnels,
            spawned := (host.ID, sp.ID) :: s.spawned }, none) ∧
      (Manager.startTunnelRecord host sp).Local = "0.0.0.0:" ++ toString sp.LocalPort ∧
      (Manager.startTunnelRecord host sp).Server = host.IP ++ ":" ++ toString host.Port ∧
      (Manager.startTunnelRecord host sp).Remote
        = sp.ServiceIP ++ ":" ++ toString sp.ServicePort) := by
  constructor
  · intro resolve cf s host sp hkey hres
    rcases hres with h | h | h
    · simp [Manager.StartTunnel, hkey, NewSSHTunnel, Manager.startTunnelRecord, h]
    · cases h0 : resolve ("0.0.0.0:" ++ toString sp.LocalPort) with
      | none => simp [Manager.StartTunnel, hkey, NewSSHTunnel, Manager.startTunnelRecord, h0]
      | some l =>
        simp [Manager.StartTunnel, hkey, NewSSHTunnel, Manager.startTunnelRecord, h0, h]
    · cases h0 : resolve ("0.0.0.0:" ++ toString sp.LocalPort) with
      | none => simp [Manager.StartTunnel, hkey, NewSSHTunnel, Manager.startTunnelRecord, h0]
      | some l =>
        cases h1 : resolve (host.IP ++ ":" ++ toString host.Port) with
        | none =>
          simp [Manager.StartTunnel, hkey, NewSSHTunnel, Manager.startTunnelRecord, h0, h1]
        | some sv =>
          simp [Manager.StartTunnel, hkey, NewSSHTunnel, Manager.startTunnelRecord, h0, h1, h]
  · intro resolve s host sp l sv r hkey hdb hl hs hr
    refine ⟨?_, rfl, rfl, rfl⟩
    simp [Manager.StartTunnel, hkey, hdb, NewSSHTunnel, Manager.startTunnelRecord, hl, hs, hr]

/-- C7 witness: a failing resolver and a succeeding resolver at concrete
inputs. -/
theorem startTunnel_endpoints_witness :
    Manager.StartTunnel resolveNone false ms0 host0 sp0
      = (ms0, some "failed to create tunnel") ∧
    Manager.StartTunnel resolveAll false ms0 host0 sp0 =
      ({ ms0 with
          tunnels := (Manager.tunnelKey host0.ID sp0.ID,
            { HostID := host0.ID, SPID := sp0.ID,
              Local := { IP := "0.0.0.0:" ++ toString sp0.LocalPort, Port := 0 },
              Server := { IP := host0.IP ++ ":" ++ toString host0.Port, Port := 0 },
              Remote := { IP := sp0.ServiceIP ++ ":" ++ toString sp0.ServicePort,
                          Port := 0 } }) :: ms0.tunnels,
          dbTunnels := Manager.startTunnelRecord host0 sp0 :: ms0.dbTunnels,
          spawned := (host0.ID, sp0.ID) :: ms0.spawned }, none) :=
  ⟨startTunnel_endpoints.1 resolveNone false ms0 host0 sp0 rfl (Or.inl rfl),
   (startTunnel_endpoints.2 resolveAll ms0 host0 sp0 _ _ _ rfl rfl rfl rfl rfl).1⟩

/-- C9: when the record upsert fails, StartTunnel returns an error with the
runtime already inserted into the registry, no record created and no Start
task spawned; every later StartTunnel for the same (hostID, spID) pair then
fails with the already-exists error and changes nothing, although no tunnel
runs and no record exists. -/
theorem startTunnel_persist_failure_leak (resolve : String → Option TCPAddr)
    (s : MState) (host : Host) (sp : ServicePort) (l sv r : TCPAddr)
    (hkey : s.tunnels.any (fun p => p.1 == Manager.tunnelKey host.ID sp.ID) = false)
    (hl : resolve ("0.0.0.0:" ++ toString sp.LocalPort) = some l)
    (hs : resolve (host.IP ++ ":" ++ toString host.Port) = some sv)
    (hr : resolve (sp.ServiceIP ++ ":" ++ toString sp.ServicePort) = some r) :
    Manager.StartTunnel resolve true s host sp =
      ({ s with tunnels := (Manager.tunnelKey host.ID sp.ID,
          { HostID := host.ID, SPID := sp.ID, Local := l, Server := sv,
            Remote := r }) :: s.tunnels },
       some "failed to create tunnel information") ∧
    (Manager.StartTunnel resolve true s host sp).1.dbTunnels = s.dbTunnels ∧
    (Manager.StartTunnel resolve true s host sp).1.spawned = s.spawned ∧
    (∀ (resolve2 : String → Option TCPAddr) (cf2 : Bool) (host2 : Host) (sp2 : ServicePort),
      host2.ID = host.ID → sp2.ID = sp.ID →
      Manager.StartTunnel resolve2 cf2 (Manager.StartTunnel resolve true s host sp).1 host2 sp2 =
        ((Manager.StartTunnel resolve true s host sp).1, some "tunnel already exists")) := by
  have he : Manager.StartTunnel resolve true s host sp =
      ({ s with tunnels := (Manager.tunnelKey host.ID sp.ID,
          { HostID := host.ID, SPID := sp.ID, Local := l, Server := sv,
            Remote := r }) :: s.tunnels },
       some "failed to create tunnel information") := by
    simp [Manager.StartTunnel, hkey, NewSSHTunnel, Manager.startTunnelRecord, hl, hs, hr]
  refine ⟨he, by rw [he], by rw [he], ?_⟩
  intro resolve2 cf2 host2 sp2 h2a h2b
  rw [he]
  have hdup : (({ s with tunnels := (Manager.tunnelKey host.ID sp.ID,
      { HostID := host.ID, SPID := sp.ID, Local := l, Server := sv,
        Remote := r }) :: s.tunnels } : MState).tunnels.any
        (fun p => p.1 == Manager.tunnelKey host2.ID sp2.ID)) = true := by
    simp [h2a, h2b]
  simp [Manager.StartTunnel, hdup]

/-- C9 witness: the persistence-failure leak at a concrete state. -/
theorem startTunnel_persist_failure_leak_witness :
    Manager.StartTunnel resolveAll true ms0 host0 sp0 =
      ({ ms0 with tunnels := (Manager.tunnelKey host0.ID sp0.ID,
          { HostID := host0.ID, SPID := sp0.ID,
            Local := { IP := "0.0.0.0:" ++ toString sp0.LocalPort, Port := 0 },
            Server := { IP := host0.IP ++ ":" ++ toString host0.Port, Port := 0 },
            Remote := { IP := sp0.ServiceIP ++ ":" ++ toString sp0.ServicePort,
                        Port := 0 } }) :: ms0.tunnels },
       some "failed to create tunnel information") ∧
    Manager.StartTunnel resolveAll false
        (Manager.StartTunnel resolveAll true ms0 host0 sp0).1 host0 sp0 =
      ((Manager.StartTunnel resolveAll true ms0 host0 sp0).1,
       some "tunnel already exists") :=
  ⟨(startTunnel_persist_failure_leak resolveAll ms0 host0 sp0 _ _ _ rfl rfl rfl rfl).1,
   (startTunnel_persist_failure_leak resolveAll ms0 host0 sp0 _ _ _ rfl rfl rfl rfl).2.2.2
     resolveAll false host0 sp0 rfl rfl⟩
